import Mathlib

/-!
Shallow embedding of the compression-system flow-network code of the
Hyperloop repository: src/hyperloop/cycle/compression_system.py,
src/hyperloop/cycle/splitter.py and src/hyperloop/cycle/transmogrifier.py.
Python floats are embedded as rationals, Python dictionaries as association
lists, and Python runtime failures (KeyError, NameError, TypeError) as an
explicit error type.
-/

namespace Hyperloop

/-- Python errors that the embedded fragments can raise, plus the error kind
NegativeFlowError that the spec names for an oversplit flow (so that claims
about it can be stated; no code in the repository defines or raises it). -/
inductive PyErr
| keyError (key : String)
| nameError (missing : String)
| typeError (msg : String)
| valueError (msg : String)
| attributeError (attr : String)
| syntaxError (msg : String)
| negativeFlowError
deriving DecidableEq

/-- Dictionary read, params[key]: returns the stored value or KeyError. -/
def dictGet (params : List (String × ℚ)) (key : String) : Except PyErr ℚ :=
  match params.lookup key with
  | some v => Except.ok v
  | none => Except.error (PyErr.keyError key)

/-- Unknowns written by Performance.apply_nonlinear in compression_system.py. -/
structure PerfUnknowns where
  pwr : ℚ
  Fnet : ℚ
  Ps_bearing_resid : ℚ
deriving DecidableEq

/-- The params dictionary of the Performance component, holding exactly the six
keys declared by add_param in Performance.__init__ (compression_system.py,
lines 15 to 20): C1_pwr, C2_pwr, Fg, F_ram, Ps_bearing_target, Ps_bearing. -/
def Performance.paramsDict (c1_pwr c2_pwr fg f_ram ps_bearing_target ps_bearing : ℚ) :
    List (String × ℚ) :=
  [("C1_pwr", c1_pwr), ("C2_pwr", c2_pwr), ("Fg", fg), ("F_ram", f_ram),
   ("Ps_bearing_target", ps_bearing_target), ("Ps_bearing", ps_bearing)]

/-- Performance.apply_nonlinear (compression_system.py, lines 29 to 32), with the
dictionary reads in source order:
pwr = params["C1_pwr"] + params["C2_pwr"];
Fnet = params["Fg"] + params["Fram"];
Ps_bearing_resid = params["Ps_bearing"] - params["Ps_bearing_target"].
The source reads the key "Fram", exactly as written there. -/
def Performance.apply_nonlinear (params : List (String × ℚ)) : Except PyErr PerfUnknowns :=
  (dictGet params "C1_pwr").bind fun c1 =>
  (dictGet params "C2_pwr").bind fun c2 =>
  (dictGet params "Fg").bind fun fg =>
  (dictGet params "Fram").bind fun fram =>
  (dictGet params "Ps_bearing").bind fun psb =>
  (dictGet params "Ps_bearing_target").bind fun pst =>
  Except.ok { pwr := c1 + c2, Fnet := fg + fram, Ps_bearing_resid := psb - pst }

/-- Python attribute lookup on an object carrying the given attribute names:
a name not among them raises AttributeError. -/
def getAttr (attrs : List String) (a : String) : Except PyErr Unit :=
  if attrs.contains a then Except.ok () else Except.error (PyErr.attributeError a)

/-- Attribute names a SplitterW instance would carry per its __init__ as
written: the stored fields (splitter.py, lines 64 to 71) and the subsystems
added by self.add, namely flow_in (line 75), out1_stat (line 78), out2_stat
(line 84), split_calc (line 94) and FAR_passthru (line 104). The per-property
passthroughs of the loop at line 92 never get added (their name format raises
TypeError), and no attribute is named out1_static or out2_static. -/
def SplitterW.instanceAttrs : List String :=
  ["mode", "thermo_data", "elements", "gas_prods", "num_prod",
   "flow_in", "out1_stat", "out2_stat", "split_calc", "FAR_passthru"]

/-- Python built-in names relevant to the embedded modules. -/
def pyBuiltins : List String :=
  ["super", "range", "len", "print", "object", "isinstance",
   "ValueError", "TypeError", "True", "False", "AssertionError"]

/-- Module-level names bound in splitter.py once it is loaded: the ten imported
names (lines 1 to 10) and the two classes the module defines. -/
def splitterModuleGlobals : List String :=
  ["Group", "Component", "newton", "g_c", "AIR_FUEL_MIX", "AIR_MIX", "SetTotal",
   "SetStaticMN", "species_data", "FlowIn", "PassThrough", "SplitterWCalc", "SplitterW"]

/-- Local names in scope inside SplitterW.__init__ when its first statement
runs: the four parameters of the def (splitter.py, line 56). -/
def SplitterW.initLocals : List String := ["self", "thermo_data", "elements", "mode"]

/-- Names referenced by the first executed statement of SplitterW.__init__,
super(Splitter, self).__init__() (splitter.py, line 57), in evaluation order. -/
def SplitterW.superCallNames : List String := ["super", "Splitter", "self"]

/-- Python name resolution for a sequence of referenced names: each name must be
a local, a module global or a builtin, else the reference raises NameError. -/
def resolveNames (locals globals : List String) : List String → Except PyErr Unit
  | [] => Except.ok ()
  | n :: rest =>
    if locals.contains n || globals.contains n || pyBuiltins.contains n then
      resolveNames locals globals rest
    else
      Except.error (PyErr.nameError n)

/-- SplitterW.__init__ up to its first two statements (splitter.py, lines 56 to
62): first the super call, whose names must resolve, then the mode check that
raises ValueError unless mode is "MN" or "area". The thermo_data and elements
arguments are not read before these statements. -/
def SplitterW.construct (thermo_data elements mode : String) : Except PyErr Unit :=
  (resolveNames SplitterW.initLocals splitterModuleGlobals SplitterW.superCallNames).bind
    fun _ =>
      if mode == "MN" || mode == "area" then Except.ok ()
      else Except.error (PyErr.valueError "Only MN and area are allowed values for mode")

/-- The flow-assignment statements of SplitterW.solve_nonlinear (splitter.py,
lines 106 to 108) as executed: line 107 first looks up self.out1_static and
line 108 self.out2_static, but the subsystems were added as out1_stat and
out2_stat, so the first lookup raises AttributeError before any value is
stored. The right-hand sides written there are params["W1"] and
params["Fl_I:stat:W"] - params["W1"]. -/
def SplitterW.solve_flow_assignments (w_in w1 : ℚ) : Except PyErr (ℚ × ℚ) :=
  match getAttr SplitterW.instanceAttrs "out1_static" with
  | Except.error e => Except.error e
  | Except.ok _ =>
    match getAttr SplitterW.instanceAttrs "out2_static" with
    | Except.error e => Except.error e
    | Except.ok _ => Except.ok (w1, w_in - w1)

/-- A splitter invocation as the claims describe one: construct a SplitterW,
then run the flow assignments of its solve_nonlinear. Construction fails
first, so the assignments are never reached. -/
def SplitterW.invoke (thermo_data elements mode : String) (w_in w1 : ℚ) :
    Except PyErr (ℚ × ℚ) :=
  match SplitterW.construct thermo_data elements mode with
  | Except.error e => Except.error e
  | Except.ok _ => SplitterW.solve_flow_assignments w_in w1

/-- Values a Python percent-format can be applied to in the embedded code. -/
inductive PyVal
| str (s : String)
| int (n : Int)
deriving DecidableEq

/-- Tokens of a Python percent-format string: literal characters and the
placeholders %d and %s. -/
inductive FmtTok
| lit (c : Char)
| specD
| specS
deriving DecidableEq

/-- Tokenize a format string into literal characters and %d / %s placeholders. -/
def parseFmt : List Char → List FmtTok
  | [] => []
  | '%' :: 'd' :: rest => FmtTok.specD :: parseFmt rest
  | '%' :: 's' :: rest => FmtTok.specS :: parseFmt rest
  | c :: rest => FmtTok.lit c :: parseFmt rest

/-- Render one format token against the remaining argument list. Python raises
TypeError when %d receives a str, and when the arguments run out. -/
def renderTok : FmtTok → List PyVal → Except PyErr (String × List PyVal)
  | FmtTok.lit c, args => Except.ok (String.singleton c, args)
  | FmtTok.specS, [] => Except.error (PyErr.typeError "not enough arguments for format string")
  | FmtTok.specS, PyVal.str s :: rest => Except.ok (s, rest)
  | FmtTok.specS, PyVal.int n :: rest => Except.ok (toString n, rest)
  | FmtTok.specD, [] => Except.error (PyErr.typeError "not enough arguments for format string")
  | FmtTok.specD, PyVal.int n :: rest => Except.ok (toString n, rest)
  | FmtTok.specD, PyVal.str _ :: _ =>
      Except.error (PyErr.typeError "%d format: a number is required, not str")

/-- Render a token list against an argument list, erroring as Python does when
arguments are missing, mistyped, or left over. -/
def renderFmt : List FmtTok → List PyVal → Except PyErr String
  | [], [] => Except.ok ""
  | [], _ :: _ =>
      Except.error (PyErr.typeError "not all arguments converted during string formatting")
  | t :: ts, args =>
      (renderTok t args).bind fun r => (renderFmt ts r.2).map fun s => r.1 ++ s

/-- Python percent-formatting, fmt % args, with a non-tuple right operand
embedded as a one-element argument list. -/
def pyFormat (fmt : String) (args : List PyVal) : Except PyErr String :=
  renderFmt (parseFmt fmt.toList) args

/-- Source name of a total-property passthrough in SplitterW.__init__
(splitter.py, line 92): the expression is written there as
"Fl_I:tot:%s" % v_name. -/
def SplitterW.totPassthruInName (v_name : String) : Except PyErr String :=
  pyFormat "Fl_I:tot:%s" [PyVal.str v_name]

/-- Target name of a total-property passthrough in SplitterW.__init__
(splitter.py, line 92): the expression is written there as
"Fl_O%d:tot:%s" % v_name, a two-placeholder format applied to the single
string argument v_name. -/
def SplitterW.totPassthruOutName (v_name : String) : Except PyErr String :=
  pyFormat "Fl_O%d:tot:%s" [PyVal.str v_name]

/-- A Python function definition as the compiler sees it: its declared
parameter names in order, and the names its body references. -/
structure PyFunDef where
  fname : String
  params : List String
  bodyNames : List String
deriving DecidableEq

/-- TransmogrifierCalc.solve_nonlinear as written (transmogrifier.py, lines 31
to 32): def solve_nonlinear(self, params, unknowns, unknowns) with body
self.apply_nonlinear(params, unknowns, resids). -/
def TransmogrifierCalc.solve_nonlinear_def : PyFunDef :=
  { fname := "solve_nonlinear",
    params := ["self", "params", "unknowns", "unknowns"],
    bodyNames := ["self", "params", "unknowns", "resids"] }

/-- Module-level names bound in transmogrifier.py once loaded: the eight
imported names (lines 1 to 9) and the two classes the module defines. -/
def transmogrifierModuleGlobals : List String :=
  ["Group", "Component", "brentq", "AIR_MIX", "SetStaticMN", "species_data",
   "FlowIn", "PassThrough", "TransmogrifierCalc", "Transmogrifier"]

/-- Body names of a function definition that are bound neither by its
parameters, nor by the module globals, nor by the builtins. -/
def PyFunDef.unboundBodyNames (d : PyFunDef) (globals : List String) : List String :=
  d.bodyNames.filter fun n =>
    !(d.params.contains n) && !(globals.contains n) && !(pyBuiltins.contains n)

/-- The residual of TransmogrifierCalc.apply_nonlinear in area mode
(transmogrifier.py, line 36): area_resid = area_out - area_out_target,
where area_out is connected from the computed exit area Fl_O:stat:area. -/
def TransmogrifierCalc.areaResid (area_out area_out_target : ℚ) : ℚ :=
  area_out - area_out_target

/-- A root-finding bracket, an interval of Mach numbers. -/
structure Bracket where
  lo : ℚ
  hi : ℚ
deriving DecidableEq

/-- The bracket chosen by Transmogrifier.solve_nonlinear in area mode
(transmogrifier.py, lines 97 to 100): (1e-4, 1.0) when
params["Fl_I:stat:MN"] < 1.0 or params["shock"], else (1.0, 50.0). -/
def Transmogrifier.chooseBracket (fl_I_stat_MN : ℚ) (shock : Bool) : Bracket :=
  if fl_I_stat_MN < 1 ∨ shock = true then { lo := 1 / 10000, hi := 1 }
  else { lo := 1, hi := 50 }

/-- Failure of the bounded root find. -/
inductive RootErr
| convergenceError
deriving DecidableEq

/-- In MN mode the exit Mach target is connected straight to the statics
calculation (transmogrifier.py, line 83) and solve_nonlinear runs no root find
(lines 102 to 103): the exit Mach is the target itself. -/
def Transmogrifier.mnModeExitMN (mn_out_target : ℚ) : ℚ := mn_out_target

/-- The ten total-property variable names looped over in Transmogrifier.__init__
(transmogrifier.py, line 85). -/
def Transmogrifier.totVarNames : List String :=
  ["h", "T", "P", "rho", "gamma", "Cp", "Cv", "S", "n", "n_moles"]

/-- The (source, target) variable-name pairs of the total-property PassThrough
components built by Transmogrifier.__init__ (transmogrifier.py, line 86): the
source line constructs PassThrough("Fl_I:tot:%s", "Fl_O:tot:%s", 0.0) with no
percent-format applied to either string, so every iteration of the loop uses
the two literal strings unchanged. -/
def Transmogrifier.totPassthruPairs : List (String × String) :=
  Transmogrifier.totVarNames.map fun _ => ("Fl_I:tot:%s", "Fl_O:tot:%s")

/-- The passthrough pairs as the spec words them: each total property v is
carried from Fl_I:tot:v to Fl_O:tot:v unchanged. Stated for comparison with
the pairs the source actually builds. -/
def Transmogrifier.specTotPassthruPairs : List (String × String) :=
  Transmogrifier.totVarNames.map fun v => ("Fl_I:tot:" ++ v, "Fl_O:tot:" ++ v)

/-- The dotted module names imported at the top of compression_system.py
(lines 1 to 10). -/
def compressionSystemImports : List String :=
  ["openmdao.core.component", "opnemdao.core.group", "openmdao.units.units",
   "pycycle.constants", "pycycle.components.flow_start", "pycycle.components.inlet",
   "pycycle.components.compressor", "pycycle.components.splitter",
   "pycycle.components.nozzle"]

/-- Modelled from the spec: the external collaborators available to this
repository are the openmdao framework, the pycycle component library, scipy
and the python standard library; no installable package is named opnemdao. -/
def availableTopLevelPackages : List String :=
  ["openmdao", "pycycle", "scipy", "numpy", "math"]

/-- Top-level package of a dotted module name: the segment before the first
dot. -/
def topLevelPackage (moduleName : String) : String :=
  String.mk (moduleName.toList.takeWhile fun c => c != '.')

/-- Tokens of a comma-separated argument or tuple-element list. -/
inductive ArgTok
| argName (s : String)
| comma
deriving DecidableEq

/-- Recognizer for the tail of a comma-separated name list (after the first
name): the remaining tokens must alternate comma, name, with an optional
trailing comma. -/
def validArgTail : List ArgTok → Bool
  | [] => true
  | [ArgTok.comma] => true
  | ArgTok.comma :: ArgTok.argName _ :: rest => validArgTail rest
  | _ => false

/-- Recognizer for a comma-separated name list, the shape Python requires of a
parenthesized tuple of names: two adjacent names with no comma between them
are a syntax error. -/
def validArgList : List ArgTok → Bool
  | [] => true
  | ArgTok.argName _ :: rest => validArgTail rest
  | ArgTok.comma :: _ => false

/-- The element tokens of the right-hand tuple of the percent-format in
CompressionSystem.connect_flow (compression_system.py, line 39): the source
reads (Fl_I_name, prefix v_name), with no comma between the last two names. -/
def connectFlowFormatArgs : List ArgTok :=
  [ArgTok.argName "Fl_I_name", ArgTok.comma, ArgTok.argName "prefix",
   ArgTok.argName "v_name"]

/-- A Python module loads only when its source parses and every import resolves
to an available top-level package; a SyntaxError or ImportError at load time
leaves every class of the module undefined. -/
def moduleLoads (imports : List String) (syntaxOk : Bool) : Bool :=
  syntaxOk && imports.all fun i => availableTopLevelPackages.contains (topLevelPackage i)

/-- Whether compression_system.py loads: its import list combined with the
well-formedness of the connect_flow tuple. -/
def compressionSystemModuleLoads : Bool :=
  moduleLoads compressionSystemImports (validArgList connectFlowFormatArgs)

/-- The dotted module names imported at the top of transmogrifier.py
(lines 1 to 9); all of them resolve to available packages. -/
def transmogrifierImports : List String :=
  ["openmdao.core.group", "openmdao.core.component", "scipy.optimize",
   "pycycle.constants", "pycycle.thermo_static", "pycycle", "pycycle.flowstation"]

/-- Whether transmogrifier.py loads: its imports all resolve, but the module
body must also compile, and the duplicate parameter list of
TransmogrifierCalc.solve_nonlinear (line 31) is a SyntaxError at load time. -/
def transmogrifierModuleLoads : Bool :=
  moduleLoads transmogrifierImports
    (decide TransmogrifierCalc.solve_nonlinear_def.params.Nodup)

/-- A call of TransmogrifierCalc.solve_nonlinear as written: resolve the names
its body references against its parameter list, the module globals and the
builtins. The body passes the name resids, which none of them bind. -/
def TransmogrifierCalc.solve_nonlinear_call : Except PyErr Unit :=
  resolveNames TransmogrifierCalc.solve_nonlinear_def.params transmogrifierModuleGlobals
    TransmogrifierCalc.solve_nonlinear_def.bodyNames

/-- One evaluation of the closure f handed to the root find by the area mode of
Transmogrifier.solve_nonlinear (transmogrifier.py, lines 92 to 95): it sets
the Mach target and runs the group solve, which invokes calc.solve_nonlinear
to write the residual; only if that call returned would f read
resids["calc.area_resid"], the area residual computed_area minus target. The
statics calculation giving the computed area is the external gas-property
oracle, taken as a parameter. -/
def Transmogrifier.fEval (computedArea : ℚ → ℚ) (area_out_target mn_exit : ℚ) :
    Except PyErr ℚ :=
  match TransmogrifierCalc.solve_nonlinear_call with
  | Except.error e => Except.error e
  | Except.ok _ =>
    Except.ok (TransmogrifierCalc.areaResid (computedArea mn_exit) area_out_target)

/-- Modelled from the spec, lifted over Python errors: bounded bisection on a
bracket, counting the iterations consumed; any Python error raised by an
evaluation of f aborts the search with that error, and exhausted fuel is a
ConvergenceError, never an unbounded loop. -/
def bisectRunE (f : ℚ → Except PyErr ℚ) : ℚ → ℚ → Nat → Except PyErr (Except RootErr ℚ × Nat)
  | _, _, 0 => Except.ok (Except.error RootErr.convergenceError, 0)
  | a, b, n + 1 =>
    match f ((a + b) / 2) with
    | Except.error e => Except.error e
    | Except.ok fm =>
      match f a with
      | Except.error e => Except.error e
      | Except.ok fa =>
        if fm = 0 then Except.ok (Except.ok ((a + b) / 2), 1)
        else if fa * fm < 0 then
          match bisectRunE f a ((a + b) / 2) n with
          | Except.error e => Except.error e
          | Except.ok r => Except.ok (r.1, r.2 + 1)
        else
          match bisectRunE f ((a + b) / 2) b n with
          | Except.error e => Except.error e
          | Except.ok r => Except.ok (r.1, r.2 + 1)

/-- Iteration count recorded by a bounded-search result; a run that aborted
with a Python error completed no iteration. -/
def stepsOf (r : Except PyErr (Except RootErr ℚ × Nat)) : Nat :=
  match r with
  | Except.ok p => p.2
  | Except.error _ => 0

/-- Modelled from the spec, lifted over Python errors: the root finder invoked
by the area mode is scipy.optimize.brentq, external to this repository; the
spec describes it as bracketed, bisection-style root finding with a fixed
iteration bound (e.g. 100), failing with ConvergenceError when the bracket
holds no sign change or the bound is exceeded. It evaluates f at the two
bracket ends first, so a Python error raised by f aborts the solve with that
error before any bisection step. -/
def brentqModelE (f : ℚ → Except PyErr ℚ) (a b : ℚ) (maxiter : Nat) :
    Except PyErr (Except RootErr ℚ) :=
  match f a with
  | Except.error e => Except.error e
  | Except.ok fa =>
    match f b with
    | Except.error e => Except.error e
    | Except.ok fb =>
      if fa = 0 then Except.ok (Except.ok a)
      else if fb = 0 then Except.ok (Except.ok b)
      else if 0 < fa * fb then Except.ok (Except.error RootErr.convergenceError)
      else
        match bisectRunE f a b maxiter with
        | Except.error e => Except.error e
        | Except.ok r => Except.ok r.1

/-- An area-mode solve of the repository program as it would execute: using the
Transmogrifier class requires transmogrifier.py to have loaded, which its
duplicate-parameter def prevents (a SyntaxError); were the module loaded, the
root find would run over the bracket chosen from the inbound static Mach and
the shock flag, with f as each residual evaluation. -/
def Transmogrifier.areaModeSolveRun (computedArea : ℚ → ℚ)
    (area_out_target fl_I_stat_MN : ℚ) (shock : Bool) : Except PyErr (Except RootErr ℚ) :=
  if transmogrifierModuleLoads then
    brentqModelE (Transmogrifier.fEval computedArea area_out_target)
      (Transmogrifier.chooseBracket fl_I_stat_MN shock).lo
      (Transmogrifier.chooseBracket fl_I_stat_MN shock).hi 100
  else
    Except.error (PyErr.syntaxError "duplicate argument in function definition")


/-- C1: the claim states Fnet = Fg − F_ram. The code instead reads the key
"Fram", which Performance.__init__ never declares (the declared key is
"F_ram"), and adds it to Fg; so every evaluation of Performance.apply_nonlinear
on the declared params dictionary raises KeyError("Fram") and never produces
the claimed net thrust. -/
theorem performance_apply_nonlinear_keyerror_fram (c1 c2 fg fr pst psb : ℚ) :
    Performance.apply_nonlinear (Performance.paramsDict c1 c2 fg fr pst psb) =
      Except.error (PyErr.keyError "Fram") := rfl

/-- C2 counterexample: at the concrete input W_in = 3, W1 = 1 (so W1 ≤ W_in),
the splitter never assigns the outlet flows: the invocation fails with
NameError("Splitter") at construction and yields no ok result, and the
flow-assignment statements themselves fail with AttributeError("out1_static"). -/
theorem splitterW_assignment_counterexample :
    (1 : ℚ) ≤ 3 ∧
    SplitterW.invoke "janaf" "AIR_MIX" "MN" 3 1 = Except.error (PyErr.nameError "Splitter") ∧
    (∀ w : ℚ × ℚ, SplitterW.invoke "janaf" "AIR_MIX" "MN" 3 1 ≠ Except.ok w) ∧
    SplitterW.solve_flow_assignments 3 1 = Except.error (PyErr.attributeError "out1_static") := by
  refine ⟨by norm_num, rfl, ?_, rfl⟩
  intro w hc
  have h1 : SplitterW.invoke "janaf" "AIR_MIX" "MN" 3 1 =
      Except.error (PyErr.nameError "Splitter") := rfl
  rw [h1] at hc
  exact Except.noConfusion hc

/-- C2 amended: the program never performs the outlet assignments: every
invocation fails with NameError("Splitter") at construction, and the
assignment statements of solve_nonlinear would fail with
AttributeError("out1_static") since the subsystems are added as out1_stat and
out2_stat; only the written right-hand sides W1 and W_in − W1, whose
exact-arithmetic sum is W_in, reflect the claimed split. -/
theorem splitterW_assignments_never_execute (td el mode : String) (w_in w1 : ℚ)
    (h : w1 ≤ w_in) :
    SplitterW.invoke td el mode w_in w1 = Except.error (PyErr.nameError "Splitter") ∧
    SplitterW.solve_flow_assignments w_in w1 =
      Except.error (PyErr.attributeError "out1_static") ∧
    w1 + (w_in - w1) = w_in :=
  ⟨rfl, rfl, by ring⟩

/-- Witness for the amended C2 at W_in = 3, W1 = 1. -/
theorem splitterW_assignments_never_execute_witness :
    (1 : ℚ) ≤ 3 ∧
    (SplitterW.invoke "janaf" "AIR_MIX" "MN" 3 1 =
        Except.error (PyErr.nameError "Splitter") ∧
     SplitterW.solve_flow_assignments 3 1 =
        Except.error (PyErr.attributeError "out1_static") ∧
     (1 : ℚ) + (3 - 1) = 3) :=
  ⟨by norm_num, splitterW_assignments_never_execute "janaf" "AIR_MIX" "MN" 3 1 (by norm_num)⟩

/-- C3 counterexample: at the concrete input W_in = 1, W1 = 2 with W1 > W_in,
the invocation does fail, but with NameError("Splitter") raised at
construction, not with NegativeFlowError: no NegativeFlowError (nor any check
of W1 against the inbound flow) exists anywhere in the repository. -/
theorem splitterW_oversplit_no_negative_flow_error_counterexample :
    (1 : ℚ) < 2 ∧
    SplitterW.invoke "janaf" "AIR_MIX" "MN" 1 2 = Except.error (PyErr.nameError "Splitter") ∧
    SplitterW.invoke "janaf" "AIR_MIX" "MN" 1 2 ≠ Except.error PyErr.negativeFlowError := by
  refine ⟨by norm_num, rfl, ?_⟩
  intro hc
  have h1 : SplitterW.invoke "janaf" "AIR_MIX" "MN" 1 2 =
      Except.error (PyErr.nameError "Splitter") := rfl
  rw [h1] at hc
  exact PyErr.noConfusion (Except.error.inj hc)

/-- C3 amended: invoking the splitter with W1 > W_in does fail, but never with
NegativeFlowError: the failure is NameError("Splitter") at construction,
before any flow comparison could run, and the flow-assignment statements
themselves would fail with AttributeError("out1_static") first if reached. -/
theorem splitterW_oversplit_fails_before_any_flow_check (td el mode : String)
    (w_in w1 : ℚ) (h : w_in < w1) :
    SplitterW.invoke td el mode w_in w1 = Except.error (PyErr.nameError "Splitter") ∧
    SplitterW.invoke td el mode w_in w1 ≠ Except.error PyErr.negativeFlowError ∧
    SplitterW.solve_flow_assignments w_in w1 =
      Except.error (PyErr.attributeError "out1_static") := by
  refine ⟨rfl, ?_, rfl⟩
  intro hc
  have h1 : SplitterW.invoke td el mode w_in w1 =
      Except.error (PyErr.nameError "Splitter") := rfl
  rw [h1] at hc
  exact PyErr.noConfusion (Except.error.inj hc)

/-- Witness for the amended C3 at W_in = 1, W1 = 2 in area mode. -/
theorem splitterW_oversplit_fails_before_any_flow_check_witness :
    (1 : ℚ) < 2 ∧
    (SplitterW.invoke "janaf" "AIR_MIX" "area" 1 2 =
        Except.error (PyErr.nameError "Splitter") ∧
     SplitterW.invoke "janaf" "AIR_MIX" "area" 1 2 ≠ Except.error PyErr.negativeFlowError ∧
     SplitterW.solve_flow_assignments 1 2 =
        Except.error (PyErr.attributeError "out1_static")) :=
  ⟨by norm_num,
   splitterW_oversplit_fails_before_any_flow_check "janaf" "AIR_MIX" "area" 1 2 (by norm_num)⟩

/-- Helper: the iteration counter of the error-aware bounded bisection never
exceeds the fuel it is given. -/
theorem bisectRunE_steps_le (f : ℚ → Except PyErr ℚ) :
    ∀ (n : Nat) (a b : ℚ), stepsOf (bisectRunE f a b n) ≤ n := by
  intro n
  induction n with
  | zero =>
    intro a b
    simp [bisectRunE, stepsOf]
  | succ k ih =>
    intro a b
    simp only [bisectRunE]
    cases hfm : f ((a + b) / 2) with
    | error e => simp [stepsOf]
    | ok fm =>
      cases hfa : f a with
      | error e => simp [stepsOf]
      | ok fa =>
        dsimp only
        split_ifs with h1 h2
        · simp [stepsOf]
        · cases hr : bisectRunE f a ((a + b) / 2) k with
          | error e => simp [stepsOf]
          | ok r =>
            have hb := ih a ((a + b) / 2)
            rw [hr] at hb
            simp [stepsOf] at hb ⊢
            omega
        · cases hr : bisectRunE f ((a + b) / 2) b k with
          | error e => simp [stepsOf]
          | ok r =>
            have hb := ih ((a + b) / 2) b
            rw [hr] at hb
            simp [stepsOf] at hb ⊢
            omega

/-- C4 evaluated at the failing point: no exit Mach is ever found by
root-finding: transmogrifier.py never loads (its duplicate-parameter def is a
SyntaxError), so the area-mode solve errors out, and even a forced run would
fail at every residual evaluation with NameError("resids") inside
calc.solve_nonlinear; the bracket-selection expression as written does choose
(1e-4, 1) exactly when the inbound static Mach is subsonic or the shock flag
is set and (1, 50) exactly otherwise, matching the claimed intent. -/
theorem transmogrifier_area_mode_solve_never_roots (computedArea : ℚ → ℚ)
    (target mn : ℚ) (shock : Bool) :
    transmogrifierModuleLoads = false ∧
    Transmogrifier.areaModeSolveRun computedArea target mn shock =
      Except.error (PyErr.syntaxError "duplicate argument in function definition") ∧
    (∀ m, Transmogrifier.fEval computedArea target m =
      Except.error (PyErr.nameError "resids")) ∧
    (Transmogrifier.chooseBracket mn shock = { lo := 1 / 10000, hi := 1 } ↔
      (mn < 1 ∨ shock = true)) ∧
    (Transmogrifier.chooseBracket mn shock = { lo := 1, hi := 50 } ↔
      ¬ (mn < 1 ∨ shock = true)) := by
  have hload : transmogrifierModuleLoads = false := by decide
  refine ⟨hload, ?_, fun m => rfl, ?_, ?_⟩
  · unfold Transmogrifier.areaModeSolveRun
    rw [hload]
    rfl
  · unfold Transmogrifier.chooseBracket
    split_ifs with h
    · exact iff_of_true rfl h
    · exact iff_of_false (by norm_num [Bracket.mk.injEq]) h
  · unfold Transmogrifier.chooseBracket
    split_ifs with h
    · exact iff_of_false (by norm_num [Bracket.mk.injEq]) (not_not_intro h)
    · exact iff_of_true rfl h

/-- C5 evaluated at the failing point: the area-mode root find never reaches
its iteration bound nor raises ConvergenceError: the module never loads
(SyntaxError), and a forced run aborts at the very first residual evaluation
with NameError("resids"); the spec-modelled bounded search itself can never
iterate beyond its fuel, so nothing loops indefinitely. -/
theorem transmogrifier_area_root_find_aborts_with_name_error (computedArea : ℚ → ℚ)
    (target mn : ℚ) (shock : Bool) :
    transmogrifierModuleLoads = false ∧
    brentqModelE (Transmogrifier.fEval computedArea target)
        (Transmogrifier.chooseBracket mn shock).lo
        (Transmogrifier.chooseBracket mn shock).hi 100 =
      Except.error (PyErr.nameError "resids") ∧
    brentqModelE (Transmogrifier.fEval computedArea target)
        (Transmogrifier.chooseBracket mn shock).lo
        (Transmogrifier.chooseBracket mn shock).hi 100 ≠
      Except.ok (Except.error RootErr.convergenceError) ∧
    (∀ (f : ℚ → Except PyErr ℚ) (a b : ℚ) (n : Nat), stepsOf (bisectRunE f a b n) ≤ n) := by
  have h2 : brentqModelE (Transmogrifier.fEval computedArea target)
      (Transmogrifier.chooseBracket mn shock).lo
      (Transmogrifier.chooseBracket mn shock).hi 100 =
    Except.error (PyErr.nameError "resids") := rfl
  refine ⟨by decide, h2, ?_, fun f a b n => bisectRunE_steps_le f n a b⟩
  intro hc
  rw [h2] at hc
  exact Except.noConfusion hc

/-- C6 evaluated at the failing point: the total-property passthroughs built by
Transmogrifier.__init__ never apply the percent-format to v_name, so every
pair carries the literal names "Fl_I:tot:%s" and "Fl_O:tot:%s"; in particular
the pair carrying total enthalpy from Fl_I:tot:h to Fl_O:tot:h does not exist,
and the built list differs from the passthrough list the spec describes, while
the MN-mode exit Mach is indeed the target with no iteration. -/
theorem transmogrifier_tot_passthru_names_malformed :
    ("Fl_I:tot:h", "Fl_O:tot:h") ∉ Transmogrifier.totPassthruPairs ∧
    (∀ p ∈ Transmogrifier.totPassthruPairs, p = ("Fl_I:tot:%s", "Fl_O:tot:%s")) ∧
    Transmogrifier.totPassthruPairs ≠ Transmogrifier.specTotPassthruPairs ∧
    (∀ t : ℚ, Transmogrifier.mnModeExitMN t = t) := by
  refine ⟨by decide, by decide, by decide, fun t => rfl⟩

/-- C7 evaluated at the failing point: no SplitterW is ever constructed (the
super call raises NameError first), and the passthrough loop itself cannot
build a branch target name: the two-placeholder format "Fl_O%d:tot:%s" applied
to the single string v_name raises TypeError, so no total property is ever
passed through into either branch. -/
theorem splitterW_tot_passthru_never_built (thermo_data elements mode v_name : String) :
    SplitterW.construct thermo_data elements mode =
      Except.error (PyErr.nameError "Splitter") ∧
    SplitterW.totPassthruOutName v_name =
      Except.error (PyErr.typeError "%d format: a number is required, not str") :=
  ⟨rfl, rfl⟩

/-- C8: the residual-update operation of the area/Mach calculation component is
not executable: the parameter list of TransmogrifierCalc.solve_nonlinear
declares the name unknowns twice (a Python SyntaxError at module load), and
the body passes the name resids, which is bound neither by a parameter nor by
the module globals nor by a builtin. -/
theorem transmogrifierCalc_solve_nonlinear_not_executable :
    ¬ TransmogrifierCalc.solve_nonlinear_def.params.Nodup ∧
    TransmogrifierCalc.solve_nonlinear_def.params.count "unknowns" = 2 ∧
    "resids" ∈
      TransmogrifierCalc.solve_nonlinear_def.unboundBodyNames transmogrifierModuleGlobals := by
  decide

/-- C9: for every thermo configuration and every mode (the mode check comes
after the failing statement, so both "MN" and "area" are covered),
constructing a SplitterW fails with NameError("Splitter"): the name Splitter
is neither a local of __init__, nor a global of splitter.py, nor a builtin. -/
theorem splitterW_construct_name_error (thermo_data elements mode : String) :
    SplitterW.construct thermo_data elements mode =
      Except.error (PyErr.nameError "Splitter") ∧
    ¬ splitterModuleGlobals.contains "Splitter" = true ∧
    ¬ SplitterW.initLocals.contains "Splitter" = true ∧
    ¬ pyBuiltins.contains "Splitter" = true :=
  ⟨rfl, by decide, by decide, by decide⟩

/-- C10: compression_system.py never loads, so no CompressionSystem graph
evaluation can begin and the Performance component inside it is never
constructed: the module imports opnemdao.core.group, whose top-level package
opnemdao is not an available package, and the connect_flow percent-format
tuple (Fl_I_name, prefix v_name) has two adjacent names with no comma, which
is not a well-formed name list. -/
theorem compression_system_module_never_loads :
    compressionSystemModuleLoads = false ∧
    "opnemdao.core.group" ∈ compressionSystemImports ∧
    ¬ availableTopLevelPackages.contains (topLevelPackage "opnemdao.core.group") = true ∧
    validArgList connectFlowFormatArgs = false := by
  decide

end Hyperloop
